import Mathlib

/-!
# gointr: interrupting a thread blocked in a system call

A shallow embedding of `intrrupter.go` (the cgo preamble and the Go type
`Interrupter`), followed by the properties of `Setup`, `Signal` and `Close`.

* The C statics `tid` and `oact`, the signal disposition table, `errno` and the
  log of calls made to the OS and to the Go runtime form the `World`; it is shared
  by all instances of the process.
* An `Interrupter` carries `sig`, `init`, `closed` and the state of its
  condition variable.  Every method body runs with `mu` held, so a method is one
  atomic step, except `Signal`, which `cond.Wait()` cuts in two: `Signal` up to
  the wait and `SignalWake` from the wake-up on.  `Wait` returns only after a
  `Broadcast`, as `sync.Cond` has it.
* What the OS answers is an argument of each operation: `e` is the verdict of
  `sigaction` (0 accepts, any other value is the errno it fails with), `r` is the
  value `pthread_kill` returns (0, or an error number).
* The `sigaction` of libc joins the bits of the platform (`SA_RESTORER` on x86-64
  Linux) to the flags of every action it installs; the world carries those bits
  as `restorer`, and the table holds the entries as the kernel stores them.
* Machine integers are `Int`; the conversions `C.int(sig)` and
  `syscall.Errno(ret)` wrap explicitly.
-/

namespace Gointr

/-! ## Data model -/

/-- The `sa_handler` slot of a `struct sigaction`. -/
inductive Handler where
  | dfl
  | ign
  | sighandler
  | other (addr : Nat)
  deriving DecidableEq, Repr

/-- The fields of `struct sigaction` the program sets; `sa_flags` is the set of
flag bits. -/
structure Sigaction where
  sa_handler : Handler
  sa_flags : Nat
  sa_mask : List Int
  deriving DecidableEq, Repr

/-- Calls to the OS and to the Go runtime, as they are logged in the world. -/
inductive Event where
  | lockOSThread (g m : Nat)
  | unlockOSThread (g m : Nat)
  | sigactionInstall (sig : Int) (act : Sigaction) (ret : Int)
  | sigactionRestore (sig : Int) (act : Sigaction) (ret : Int)
  | pthreadKill (tid : Nat) (sig : Int) (ret : Int)
  | condWait (g : Nat)
  | condBroadcast (released : List Nat)
  deriving DecidableEq, Repr

/-- Process-wide state: the disposition table of the kernel, the two C statics,
the errno of each OS thread and the log of calls, oldest first. `restorer` is the
platform: the flag bits the libc wrapper of `sigaction` adds to every action it
installs (`SA_RESTORER` on x86-64 Linux, none on a platform without it). -/
structure World where
  restorer : Nat
  disp : Int → Sigaction
  tid : Nat
  oact : Sigaction
  errno : Nat → Int
  trace : List Event

/-- The goroutine making a call and the OS thread it runs on. -/
structure Caller where
  g : Nat
  m : Nat
  deriving DecidableEq, Repr

/-- Go error values the package returns: a `syscall.Errno`, or the result of
`fmt.Errorf(ctx + "%v", err)`. -/
inductive GoError where
  | errno (e : Nat)
  | errorf (ctx : String) (arg : GoError)
  deriving DecidableEq, Repr

/-- The `Error()` text; `errstr` is the text of `syscall.Errno.Error()`. -/
def GoError.Error (errstr : Nat → String) : GoError → String
  | .errno e => errstr e
  | .errorf ctx arg => ctx ++ GoError.Error errstr arg

/-- The struct `Interrupter`: `sig`, `init`, `closed`; `waiting` is the notify
list of `cond` (goroutines parked in `Wait`), `released` the goroutines a
`Broadcast` has released and that have not yet continued. -/
structure Interrupter where
  sig : Int
  init : Bool
  closed : Bool
  waiting : List Nat
  released : List Nat
  deriving DecidableEq, Repr

/-- What a step of a method call yields: the returned `error`, a caller parked in
`cond.Wait()`, or nothing to run (the goroutine has not been released). -/
inductive Outcome where
  | returned (err : Option GoError)
  | blocked
  | idle
  deriving DecidableEq, Repr

/-! ## Conversions -/

/-- The conversion `C.int(sig)` of a Go `int`: wrap to 32 bits, signed. -/
def C_int (x : Int) : Int := (x + 2 ^ 31) % 2 ^ 32 - 2 ^ 31

/-- The conversion `syscall.Errno(ret)` of a C `int` to `uintptr`. -/
def Errno (ret : Int) : Nat := (ret % 2 ^ 64).toNat

/-! ## The cgo preamble -/

/-- The `act` that `setup_signal` builds: `sighandler`, `sa_flags = 0`, empty
`sa_mask`. -/
def noopAct : Sigaction := ⟨Handler.sighandler, 0, []⟩

/-- Log one call. -/
def World.log (w : World) (ev : Event) : World :=
  { w with trace := w.trace ++ [ev] }

/-- What the kernel stores for an action installed through libc: the action with
the bits `restorer` added to its flags. -/
def installed (restorer : Nat) (act : Sigaction) : Sigaction :=
  { act with sa_flags := act.sa_flags ||| restorer }

/-- The call `sigaction(sig, &act, oldact)` of libc: on verdict 0 the entry of
`sig` becomes `act` with the bits of the platform added to its flags and the call
returns 0 (the old entry, read as the kernel holds it, is the second component);
otherwise nothing changes but `errno` of the calling thread, and it returns -1. -/
def sigaction (e : Int) (m : Nat) (sig : Int) (act : Sigaction) (w : World) :
    Int × Sigaction × World :=
  if e = 0 then
    (0, w.disp sig, { w with disp := Function.update w.disp sig (installed w.restorer act) })
  else (-1, w.disp sig, { w with errno := Function.update w.errno m e })

/-- The C function `setup_signal`. -/
def setup_signal (e : Int) (m : Nat) (sig : Int) (w : World) : Int × World :=
  let w1 := { w with tid := m }
  let act := noopAct
  let (ret, old, w2) := sigaction e m sig act w1
  let w3 := w2.log (Event.sigactionInstall sig act ret)
  if ret ≠ 0 then (w3.errno m, w3)
  else (0, { w3 with oact := old })

/-- The call `pthread_kill(tid, sig)`: returns `r`, 0 or an error number. -/
def pthread_kill (r : Int) (tid : Nat) (sig : Int) (w : World) : Int × World :=
  (r, w.log (Event.pthreadKill tid sig r))

/-- The C function `kill_thread`. -/
def kill_thread (r : Int) (m : Nat) (sig : Int) (w : World) : Int × World :=
  let (ret, w1) := pthread_kill r w.tid sig w
  if ret = -1 then (w1.errno m, w1)
  else (0, w1)

/-- The C function `reset_signal`. -/
def reset_signal (e : Int) (m : Nat) (sig : Int) (w : World) : Int × World :=
  let (ret, _, w1) := sigaction e m sig w.oact w
  let w2 := w1.log (Event.sigactionRestore sig w.oact ret)
  if ret ≠ 0 then (w2.errno m, w2)
  else (0, w2)

/-! ## The Go wrappers -/

/-- The Go function `setupSignal`. -/
def setupSignal (e : Int) (m : Nat) (sig : Int) (w : World) : Option GoError × World :=
  let (ret, w1) := setup_signal e m (C_int sig) w
  if ret ≠ 0 then (some (GoError.errno (Errno ret)), w1)
  else (none, w1)

/-- The Go function `killThread`. -/
def killThread (r : Int) (m : Nat) (sig : Int) (w : World) : Option GoError × World :=
  let (ret, w1) := kill_thread r m (C_int sig) w
  if ret ≠ 0 then (some (GoError.errno (Errno ret)), w1)
  else (none, w1)

/-- The Go function `resetSignal`. -/
def resetSignal (e : Int) (m : Nat) (sig : Int) (w : World) : Option GoError × World :=
  let (ret, w1) := reset_signal e m (C_int sig) w
  if ret ≠ 0 then (some (GoError.errno (Errno ret)), w1)
  else (none, w1)

/-! ## The type `Interrupter` -/

/-- The constructor `New`. -/
def New (sig : Int) : Interrupter :=
  { sig := sig, init := false, closed := false, waiting := [], released := [] }

/-- The call `intr.cond.Broadcast()`: every parked goroutine is released. -/
def Broadcast (w : World) (i : Interrupter) : World × Interrupter :=
  (w.log (Event.condBroadcast i.waiting),
   { i with waiting := [], released := i.released ++ i.waiting })

/-- The method `Setup`; the deferred `Broadcast` runs on both return paths. -/
def Setup (c : Caller) (e : Int) (w : World) (i : Interrupter) :
    Outcome × World × Interrupter :=
  let i1 := { i with init := true }
  let w1 := w.log (Event.lockOSThread c.g c.m)
  let (err, w2) := setupSignal e c.m i1.sig w1
  match err with
  | some err =>
    let i2 := { i1 with closed := true }
    let (w3, i3) := Broadcast w2 i2
    (Outcome.returned (some (GoError.errorf "setup sigaction : " err)), w3, i3)
  | none =>
    let (w3, i3) := Broadcast w2 i1
    (Outcome.returned none, w3, i3)

/-- The method `Close`. -/
def Close (c : Caller) (e : Int) (w : World) (i : Interrupter) :
    Outcome × World × Interrupter :=
  if i.closed then (Outcome.returned none, w, i)
  else
    let w1 := w.log (Event.unlockOSThread c.g c.m)
    let (err, w2) := resetSignal e c.m i.sig w1
    match err with
    | some err => (Outcome.returned (some (GoError.errorf "reset sigaction : " err)), w2, i)
    | none =>
      let i1 := { i with closed := true }
      let (w3, i2) := Broadcast w2 i1
      (Outcome.returned none, w3, i2)

/-- The method `Signal` from the check of `closed` on (what runs once `init` is
set or `Wait` has returned). -/
def signalTail (c : Caller) (r : Int) (w : World) (i : Interrupter) :
    Outcome × World × Interrupter :=
  if i.closed then (Outcome.returned none, w, i)
  else
    let (err, w1) := killThread r c.m i.sig w
    match err with
    | some err => (Outcome.returned (some (GoError.errorf "send signal to thread : " err)), w1, i)
    | none => (Outcome.returned none, w1, i)

/-- The method `Signal` up to its return or to `cond.Wait()`, where the caller
parks on the notify list. -/
def Signal (c : Caller) (r : Int) (w : World) (i : Interrupter) :
    Outcome × World × Interrupter :=
  if !i.init then
    (Outcome.blocked, w.log (Event.condWait c.g), { i with waiting := i.waiting ++ [c.g] })
  else signalTail c r w i

/-- The rest of `Signal` for a goroutine that a `Broadcast` released from
`cond.Wait()`; a goroutine that has not been released has nothing to run. -/
def SignalWake (c : Caller) (r : Int) (w : World) (i : Interrupter) :
    Outcome × World × Interrupter :=
  if c.g ∈ i.released then signalTail c r w { i with released := i.released.erase c.g }
  else (Outcome.idle, w, i)

/-! ## Several instances in one process -/

/-- A method call with what the OS answers to it. -/
inductive Call where
  | Setup (c : Caller) (e : Int)
  | Close (c : Caller) (e : Int)
  | Signal (c : Caller) (r : Int)
  | SignalWake (c : Caller) (r : Int)
  deriving DecidableEq, Repr

/-- Run one call on an instance. -/
def Call.run (call : Call) (w : World) (i : Interrupter) : Outcome × World × Interrupter :=
  match call with
  | .Setup c e => Gointr.Setup c e w i
  | .Close c e => Gointr.Close c e w i
  | .Signal c r => Gointr.Signal c r w i
  | .SignalWake c r => Gointr.SignalWake c r w i

/-- The process: the world and the instances, by address. -/
structure Sys where
  world : World
  objs : Nat → Interrupter

/-- One call on the instance at address `k`. -/
def exec (k : Nat) (call : Call) (s : Sys) : Outcome × Sys :=
  let (out, w, i) := call.run s.world (s.objs k)
  (out, { world := w, objs := Function.update s.objs k i })

/-- A schedule of calls, each on an instance; the outcomes come in order. -/
def runAll : List (Nat × Call) → Sys → List Outcome × Sys
  | [], s => ([], s)
  | (k, call) :: rest, s =>
    let (out, s1) := exec k call s
    let (outs, s2) := runAll rest s1
    (out :: outs, s2)

/-- A world of a process on x86-64 Linux (`SA_RESTORER` is 0x04000000) that has
made no call: default dispositions, statics zeroed. -/
def World.boot : World :=
  { restorer := 67108864, disp := fun _ => ⟨Handler.dfl, 0, []⟩, tid := 0,
    oact := ⟨Handler.dfl, 0, []⟩, errno := fun _ => 0, trace := [] }

/-! ## Vocabulary of the statements -/

/-- Whether a call is a `Setup`. -/
def Call.isSetup : Call → Bool
  | .Setup _ _ => true
  | _ => false

/-- Whether a call is a step of `Signal`. -/
def Call.isSignal : Call → Bool
  | .Signal _ _ => true
  | .SignalWake _ _ => true
  | _ => false

/-- Whether an event is a call of `pthread_kill`. -/
def Event.isKill : Event → Bool
  | .pthreadKill _ _ _ => true
  | _ => false

/-- Whether an event is the `sigaction` call of `reset_signal`. -/
def Event.isRestore : Event → Bool
  | .sigactionRestore _ _ _ => true
  | _ => false

/-- The calls of `pthread_kill` in a log. -/
def kills (t : List Event) : List Event := t.filter Event.isKill

/-- The restoring `sigaction` calls in a log. -/
def restores (t : List Event) : List Event := t.filter Event.isRestore

/-- What a call appended to the log of `w`, given the world it produced. -/
def newEvents (w w1 : World) : List Event := w1.trace.drop w.trace.length

/-- A call made between the `Setup` and the `Close` of the instance at `k` that
sets up and closes nothing: a step of `Signal` on any instance, or a `Close` of
`k` whose restore fails. -/
def between (k : Nat) (st : Nat × Call) : Bool :=
  match st.2 with
  | .Signal _ _ => true
  | .SignalWake _ _ => true
  | .Close _ e => st.1 == k && e != 0
  | .Setup _ _ => false

/-- A world in which signal 10 has a handler of the application, installed
through libc with `SA_RESTART` (flags `SA_RESTART | SA_RESTORER`) and a mask
blocking signal 2; every other signal has its pristine default entry. -/
def World.sample : World :=
  { World.boot with
    disp := fun n => if n = 10 then ⟨Handler.other 4096, 335544320, [2]⟩
                     else ⟨Handler.dfl, 0, []⟩ }

/-- Two fresh instances, for signals 10 (at address 0) and 12 (elsewhere). -/
def Sys.two : Sys :=
  { world := World.sample, objs := fun k => New (if k = 0 then 10 else 12) }

/-! ## The wrappers, case by case -/

theorem setupSignal_ok (m : Nat) (sig : Int) (w : World) :
    setupSignal 0 m sig w =
      (none, { w with
        tid := m
        disp := Function.update w.disp (C_int sig) (installed w.restorer noopAct)
        oact := w.disp (C_int sig)
        trace := w.trace ++ [Event.sigactionInstall (C_int sig) noopAct 0] }) := by
  simp [setupSignal, setup_signal, sigaction, World.log]

theorem setupSignal_fail (e : Int) (he : e ≠ 0) (m : Nat) (sig : Int) (w : World) :
    setupSignal e m sig w =
      (some (GoError.errno (Errno e)), { w with
        tid := m
        errno := Function.update w.errno m e
        trace := w.trace ++ [Event.sigactionInstall (C_int sig) noopAct (-1)] }) := by
  simp [setupSignal, setup_signal, sigaction, World.log, he]

theorem resetSignal_ok (m : Nat) (sig : Int) (w : World) :
    resetSignal 0 m sig w =
      (none, { w with
        disp := Function.update w.disp (C_int sig) (installed w.restorer w.oact)
        trace := w.trace ++ [Event.sigactionRestore (C_int sig) w.oact 0] }) := by
  simp [resetSignal, reset_signal, sigaction, World.log]

theorem resetSignal_fail (e : Int) (he : e ≠ 0) (m : Nat) (sig : Int) (w : World) :
    resetSignal e m sig w =
      (some (GoError.errno (Errno e)), { w with
        errno := Function.update w.errno m e
        trace := w.trace ++ [Event.sigactionRestore (C_int sig) w.oact (-1)] }) := by
  simp [resetSignal, reset_signal, sigaction, World.log, he]

theorem killThread_eq (r : Int) (hr : r ≠ -1) (m : Nat) (sig : Int) (w : World) :
    killThread r m sig w =
      (none, { w with trace := w.trace ++ [Event.pthreadKill w.tid (C_int sig) r] }) := by
  simp [killThread, kill_thread, pthread_kill, World.log, hr]

theorem killThread_world (r : Int) (m : Nat) (sig : Int) (w : World) :
    (killThread r m sig w).2 =
      { w with trace := w.trace ++ [Event.pthreadKill w.tid (C_int sig) r] } := by
  unfold killThread kill_thread pthread_kill World.log
  by_cases hr : r = -1 <;> by_cases h0 : w.errno m = 0 <;> simp [hr, h0]

/-! ## The methods, case by case -/

theorem Setup_ok (c : Caller) (w : World) (i : Interrupter) :
    Setup c 0 w i =
      (Outcome.returned none,
       { w with
          tid := c.m
          disp := Function.update w.disp (C_int i.sig) (installed w.restorer noopAct)
          oact := w.disp (C_int i.sig)
          trace := w.trace ++ [Event.lockOSThread c.g c.m,
            Event.sigactionInstall (C_int i.sig) noopAct 0, Event.condBroadcast i.waiting] },
       { i with init := true, waiting := [], released := i.released ++ i.waiting }) := by
  simp [Setup, setupSignal_ok, Broadcast, World.log]

theorem Setup_fail (c : Caller) (e : Int) (he : e ≠ 0) (w : World) (i : Interrupter) :
    Setup c e w i =
      (Outcome.returned (some (GoError.errorf "setup sigaction : " (GoError.errno (Errno e)))),
       { w with
          tid := c.m
          errno := Function.update w.errno c.m e
          trace := w.trace ++ [Event.lockOSThread c.g c.m,
            Event.sigactionInstall (C_int i.sig) noopAct (-1), Event.condBroadcast i.waiting] },
       { i with init := true, closed := true, waiting := [],
                released := i.released ++ i.waiting }) := by
  simp [Setup, setupSignal_fail e he, Broadcast, World.log]

theorem Close_closed (c : Caller) (e : Int) (w : World) (i : Interrupter)
    (h : i.closed = true) : Close c e w i = (Outcome.returned none, w, i) := by
  simp [Close, h]

theorem Close_ok (c : Caller) (w : World) (i : Interrupter) (h : i.closed = false) :
    Close c 0 w i =
      (Outcome.returned none,
       { w with
          disp := Function.update w.disp (C_int i.sig) (installed w.restorer w.oact)
          trace := w.trace ++ [Event.unlockOSThread c.g c.m,
            Event.sigactionRestore (C_int i.sig) w.oact 0, Event.condBroadcast i.waiting] },
       { i with closed := true, waiting := [], released := i.released ++ i.waiting }) := by
  simp [Close, h, resetSignal_ok, Broadcast, World.log]

theorem Close_fail (c : Caller) (e : Int) (he : e ≠ 0) (w : World) (i : Interrupter)
    (h : i.closed = false) :
    Close c e w i =
      (Outcome.returned (some (GoError.errorf "reset sigaction : " (GoError.errno (Errno e)))),
       { w with
          errno := Function.update w.errno c.m e
          trace := w.trace ++ [Event.unlockOSThread c.g c.m,
            Event.sigactionRestore (C_int i.sig) w.oact (-1)] },
       i) := by
  simp [Close, h, resetSignal_fail e he, World.log]

theorem signalTail_closed (c : Caller) (r : Int) (w : World) (i : Interrupter)
    (h : i.closed = true) : signalTail c r w i = (Outcome.returned none, w, i) := by
  simp [signalTail, h]

theorem signalTail_open (c : Caller) (r : Int) (w : World) (i : Interrupter)
    (h : i.closed = false) :
    (signalTail c r w i).2 =
      ({ w with trace := w.trace ++ [Event.pthreadKill w.tid (C_int i.sig) r] }, i) := by
  have hw := killThread_world r c.m i.sig w
  unfold signalTail
  simp only [h]
  cases hk : killThread r c.m i.sig w with
  | mk err w1 =>
    rw [hk] at hw
    cases err <;> simp_all

theorem signalTail_open_out (c : Caller) (r : Int) (hr : r ≠ -1) (w : World)
    (i : Interrupter) (h : i.closed = false) :
    (signalTail c r w i).1 = Outcome.returned none := by
  simp [signalTail, h, killThread_eq r hr]

theorem Signal_init (c : Caller) (r : Int) (w : World) (i : Interrupter)
    (h : i.init = true) : Signal c r w i = signalTail c r w i := by
  simp [Signal, h]

theorem Signal_park (c : Caller) (r : Int) (w : World) (i : Interrupter)
    (h : i.init = false) :
    Signal c r w i =
      (Outcome.blocked, { w with trace := w.trace ++ [Event.condWait c.g] },
       { i with waiting := i.waiting ++ [c.g] }) := by
  simp [Signal, h, World.log]

/-! ## What every call preserves -/

theorem newEvents_append (w w1 : World) (evs : List Event)
    (h : w1.trace = w.trace ++ evs) : newEvents w w1 = evs := by
  simp [newEvents, h]

/-- Frame of one call: the signal number is fixed, the flags only rise, the log
only grows, the statics move only in `Setup`, and a step of `Signal` touches
neither the flags nor the disposition table. -/
theorem run_frame (call : Call) (w : World) (i : Interrupter) :
    (call.run w i).2.2.sig = i.sig ∧
    (i.init = true → (call.run w i).2.2.init = true) ∧
    (i.closed = true → (call.run w i).2.2.closed = true) ∧
    w.trace <+: (call.run w i).2.1.trace ∧
    (call.isSetup = false →
      (call.run w i).2.1.tid = w.tid ∧ (call.run w i).2.1.oact = w.oact) ∧
    (call.isSignal = true →
      (call.run w i).2.1.disp = w.disp ∧ (call.run w i).2.2.init = i.init ∧
      (call.run w i).2.2.closed = i.closed) := by
  cases call with
  | Setup c e =>
    by_cases he : e = 0
    · subst he; simp [Call.run, Setup_ok, Call.isSetup, Call.isSignal]
    · simp [Call.run, Setup_fail c e he, Call.isSetup, Call.isSignal]
  | Close c e =>
    cases hc : i.closed
    · by_cases he : e = 0
      · subst he; simp [Call.run, Close_ok c w i hc, Call.isSetup, Call.isSignal]
      · simp [Call.run, Close_fail c e he w i hc, Call.isSetup, Call.isSignal, hc]
    · simp [Call.run, Close_closed c e w i hc, Call.isSetup, Call.isSignal, hc]
  | Signal c r =>
    cases hi : i.init
    · simp [Call.run, Signal, hi, World.log, Call.isSetup, Call.isSignal]
    · cases hc : i.closed
      · simp [Call.run, Signal, hi, signalTail_open c r w i hc, Call.isSetup,
          Call.isSignal, hc]
      · simp [Call.run, Signal, hi, signalTail_closed c r w i hc, Call.isSetup,
          Call.isSignal, hc]
  | SignalWake c r =>
    by_cases hm : c.g ∈ i.released
    · have hj : SignalWake c r w i =
          signalTail c r w { i with released := i.released.erase c.g } := by
        simp [SignalWake, hm]
      generalize hjd : ({ i with released := i.released.erase c.g } : Interrupter) = j at hj
      have hs : j.sig = i.sig := by rw [← hjd]
      have hin : j.init = i.init := by rw [← hjd]
      have hcl : j.closed = i.closed := by rw [← hjd]
      cases hc : j.closed
      · simp [Call.run, hj, signalTail_open c r w j hc, Call.isSetup, Call.isSignal, hs,
          hin, ← hcl, hc]
      · simp [Call.run, hj, signalTail_closed c r w j hc, Call.isSetup, Call.isSignal, hs,
          hin, ← hcl, hc]
    · simp [Call.run, SignalWake, hm, Call.isSetup, Call.isSignal]

/-- The flag `closed` rises only in a `Setup` that returns an error and in a
`Close` that returns nil. -/
theorem run_closes (call : Call) (w : World) (i : Interrupter)
    (h0 : i.closed = false) (h1 : (call.run w i).2.2.closed = true) :
    (∃ c e err, call = Call.Setup c e ∧ (call.run w i).1 = Outcome.returned (some err)) ∨
    (∃ c e, call = Call.Close c e ∧ (call.run w i).1 = Outcome.returned none) := by
  cases call with
  | Setup c e =>
    by_cases he : e = 0
    · subst he; simp [Call.run, Setup_ok, h0] at h1
    · exact Or.inl ⟨c, e, GoError.errorf "setup sigaction : " (GoError.errno (Errno e)), rfl,
        by simp [Call.run, Setup_fail c e he]⟩
  | Close c e =>
    by_cases he : e = 0
    · subst he; exact Or.inr ⟨c, 0, rfl, by simp [Call.run, Close_ok c w i h0]⟩
    · simp [Call.run, Close_fail c e he w i h0, h0] at h1
  | Signal c r =>
    have h := (run_frame (Call.Signal c r) w i).2.2.2.2.2 rfl
    rw [h.2.2, h0] at h1; cases h1
  | SignalWake c r =>
    have h := (run_frame (Call.SignalWake c r) w i).2.2.2.2.2 rfl
    rw [h.2.2, h0] at h1; cases h1

/-! ## The process -/

theorem exec_out (k : Nat) (call : Call) (s : Sys) :
    (exec k call s).1 = (call.run s.world (s.objs k)).1 := rfl

theorem exec_world (k : Nat) (call : Call) (s : Sys) :
    (exec k call s).2.world = (call.run s.world (s.objs k)).2.1 := rfl

theorem exec_objs_self (k : Nat) (call : Call) (s : Sys) :
    (exec k call s).2.objs k = (call.run s.world (s.objs k)).2.2 := by
  simp [exec]

theorem exec_objs_other (k : Nat) (call : Call) (s : Sys) (j : Nat) (h : j ≠ k) :
    (exec k call s).2.objs j = s.objs j := by
  simp [exec, h]

theorem runAll_cons (k : Nat) (call : Call) (rest : List (Nat × Call)) (s : Sys) :
    runAll ((k, call) :: rest) s =
      ((exec k call s).1 :: (runAll rest (exec k call s).2).1,
       (runAll rest (exec k call s).2).2) := rfl

/-! ## Single calls -/

theorem Errno_of_pos (e : Int) (h0 : 0 < e) (h1 : e < 2 ^ 64) : Errno e = e.toNat := by
  unfold Errno
  rw [Int.emod_eq_of_lt (le_of_lt h0) h1]

theorem C_int_of_range (x : Int) (h0 : -2 ^ 31 ≤ x) (h1 : x < 2 ^ 31) : C_int x = x := by
  unfold C_int
  rw [Int.emod_eq_of_lt (by omega) (by omega)]
  omega

/-- C3 (the code departs from the claim): on an Active instance `Signal` returns
nil for every value `pthread_kill` returns other than -1, so for each error
number it reports (ESRCH, EINVAL); the call is made once, and the failure is
dropped because `kill_thread` tests the result against -1. -/
theorem Signal_drops_kill_failure (c : Caller) (r : Int) (hr : r ≠ -1) (w : World)
    (i : Interrupter) (hi : i.init = true) (hc : i.closed = false) :
    Signal c r w i =
      (Outcome.returned none,
       { w with trace := w.trace ++ [Event.pthreadKill w.tid (C_int i.sig) r] }, i) := by
  have h1 := signalTail_open c r w i hc
  have h2 := signalTail_open_out c r hr w i hc
  have h3 : Signal c r w i = signalTail c r w i := by simp [Signal, hi]
  rw [h3]
  exact Prod.ext h2 h1

/-- C3 at ESRCH (3): thread 1 set the instance up, `pthread_kill` reports that
the thread is gone, and `Signal` returns nil. -/
theorem Signal_drops_kill_failure_witness :
    (3 : Int) ≠ -1 ∧
    (Setup ⟨1, 1⟩ 0 World.boot (New 10)).2.2.init = true ∧
    (Setup ⟨1, 1⟩ 0 World.boot (New 10)).2.2.closed = false ∧
    (Signal ⟨2, 2⟩ 3 (Setup ⟨1, 1⟩ 0 World.boot (New 10)).2.1
      (Setup ⟨1, 1⟩ 0 World.boot (New 10)).2.2).1 = Outcome.returned none :=
  ⟨by decide, by decide, by decide,
   congrArg Prod.fst (Signal_drops_kill_failure ⟨2, 2⟩ 3 (by decide)
     (Setup ⟨1, 1⟩ 0 World.boot (New 10)).2.1 (Setup ⟨1, 1⟩ 0 World.boot (New 10)).2.2
     (by decide) (by decide))⟩

/-- C4 as the code has it: when the restore fails in `Close` on an instance that
is not closed, `Close` returns the error "reset sigaction : " followed by the
text of the errno, and leaves the instance as it was (`closed` still unset, no
broadcast) and the disposition table untouched, after one unpin and one restore
attempt; so a later `Signal` on an initialised instance still delivers, and a
later `Close` calls the restore primitive again. -/
theorem Close_failure_keeps_open (c : Caller) (e : Int) (he : e ≠ 0) (w : World)
    (i : Interrupter) (hc : i.closed = false) :
    (Close c e w i).1 =
      Outcome.returned (some (GoError.errorf "reset sigaction : " (GoError.errno (Errno e)))) ∧
    (∀ errstr : Nat → String,
      GoError.Error errstr (GoError.errorf "reset sigaction : " (GoError.errno (Errno e))) =
        "reset sigaction : " ++ errstr (Errno e)) ∧
    (Close c e w i).2.2 = i ∧
    (Close c e w i).2.1.disp = w.disp ∧
    newEvents w (Close c e w i).2.1 =
      [Event.unlockOSThread c.g c.m, Event.sigactionRestore (C_int i.sig) w.oact (-1)] ∧
    (∀ (c1 : Caller) (r : Int), i.init = true →
      newEvents (Close c e w i).2.1 (Signal c1 r (Close c e w i).2.1 (Close c e w i).2.2).2.1 =
        [Event.pthreadKill w.tid (C_int i.sig) r]) ∧
    (∀ (c1 : Caller) (e1 : Int),
      restores (newEvents (Close c e w i).2.1
          (Close c1 e1 (Close c e w i).2.1 (Close c e w i).2.2).2.1) =
        [Event.sigactionRestore (C_int i.sig) w.oact (if e1 = 0 then 0 else -1)]) := by
  rw [Close_fail c e he w i hc]
  refine ⟨rfl, fun _ => rfl, rfl, rfl, ?_, ?_, ?_⟩
  · exact newEvents_append _ _ _ rfl
  · intro c1 r hi
    have h3 : ∀ w1, Signal c1 r w1 i = signalTail c1 r w1 i := by intro w1; simp [Signal, hi]
    simp only [h3]
    rw [signalTail_open c1 r _ i hc]
    exact newEvents_append _ _ _ rfl
  · intro c1 e1
    by_cases h1 : e1 = 0
    · subst h1
      simp only [Close_ok c1 _ i hc]
      rw [newEvents_append _ _ _ rfl]
      simp [restores, Event.isRestore]
    · simp only [Close_fail c1 e1 h1 _ i hc]
      rw [newEvents_append _ _ _ rfl]
      simp [restores, Event.isRestore, h1]

/-- C4 at EINVAL (22) on an instance that thread 1 set up. -/
theorem Close_failure_keeps_open_witness :
    (22 : Int) ≠ 0 ∧ (Setup ⟨1, 1⟩ 0 World.boot (New 10)).2.2.closed = false ∧
    (Close ⟨1, 1⟩ 22 (Setup ⟨1, 1⟩ 0 World.boot (New 10)).2.1
        (Setup ⟨1, 1⟩ 0 World.boot (New 10)).2.2).2.2 =
      (Setup ⟨1, 1⟩ 0 World.boot (New 10)).2.2 :=
  ⟨by decide, by decide,
   (Close_failure_keeps_open ⟨1, 1⟩ 22 (by decide)
     (Setup ⟨1, 1⟩ 0 World.boot (New 10)).2.1 (Setup ⟨1, 1⟩ 0 World.boot (New 10)).2.2
     (by decide)).2.2.1⟩

/-- C4 as stated fails: after `Setup` by thread 1 on signal 10, a `Close` whose
restore fails with EINVAL returns the error and leaves `closed` unset; the next
`Signal` calls `pthread_kill`, and the next `Close` calls the restore again. -/
theorem Close_failure_counterexample :
    (runAll [(0, Call.Setup ⟨1, 1⟩ 0), (0, Call.Close ⟨1, 1⟩ 22), (0, Call.Signal ⟨2, 2⟩ 0),
        (0, Call.Close ⟨1, 1⟩ 0)] ⟨World.boot, fun _ => New 10⟩).1 =
      [Outcome.returned none,
       Outcome.returned (some (GoError.errorf "reset sigaction : " (GoError.errno 22))),
       Outcome.returned none, Outcome.returned none] ∧
    ((runAll [(0, Call.Setup ⟨1, 1⟩ 0), (0, Call.Close ⟨1, 1⟩ 22)]
        ⟨World.boot, fun _ => New 10⟩).2.objs 0).closed = false ∧
    (runAll [(0, Call.Setup ⟨1, 1⟩ 0), (0, Call.Close ⟨1, 1⟩ 22), (0, Call.Signal ⟨2, 2⟩ 0),
        (0, Call.Close ⟨1, 1⟩ 0)] ⟨World.boot, fun _ => New 10⟩).2.world.trace =
      [Event.lockOSThread 1 1, Event.sigactionInstall 10 noopAct 0, Event.condBroadcast [],
       Event.unlockOSThread 1 1, Event.sigactionRestore 10 ⟨Handler.dfl, 0, []⟩ (-1),
       Event.pthreadKill 1 10 0,
       Event.unlockOSThread 1 1, Event.sigactionRestore 10 ⟨Handler.dfl, 0, []⟩ 0,
       Event.condBroadcast []] := by
  decide

theorem Setup_sets_init (c : Caller) (e : Int) (w : World) (i : Interrupter) :
    ((Call.Setup c e).run w i).2.2.init = true := by
  by_cases he : e = 0
  · subst he; simp [Call.run, Setup_ok]
  · simp [Call.run, Setup_fail c e he]

/-- C5: on an Uninitialized instance (both flags unset), a `Setup` whose install
fails with errno `e` returns the error whose text is "setup sigaction : "
followed by the text of `e`, and the instance comes out of the call Closed (both
flags set: the one atomic step takes it from Uninitialized to Closed); `Setup`
returns nil exactly when the install succeeds, and the instance is then Active
(`init` set, `closed` unset). -/
theorem Setup_outcome (c : Caller) (e : Int) (w : World) (sig : Int)
    (waiting released : List Nat) :
    (e ≠ 0 →
      (Setup c e w ⟨sig, false, false, waiting, released⟩).1 =
        Outcome.returned
          (some (GoError.errorf "setup sigaction : " (GoError.errno (Errno e)))) ∧
      (∀ errstr : Nat → String,
        GoError.Error errstr (GoError.errorf "setup sigaction : " (GoError.errno (Errno e))) =
          "setup sigaction : " ++ errstr (Errno e)) ∧
      (0 < e → e < 2 ^ 31 → Errno e = e.toNat) ∧
      (Setup c e w ⟨sig, false, false, waiting, released⟩).2.2.init = true ∧
      (Setup c e w ⟨sig, false, false, waiting, released⟩).2.2.closed = true) ∧
    ((Setup c e w ⟨sig, false, false, waiting, released⟩).1 = Outcome.returned none ↔ e = 0) ∧
    (e = 0 →
      (Setup c e w ⟨sig, false, false, waiting, released⟩).2.2.init = true ∧
      (Setup c e w ⟨sig, false, false, waiting, released⟩).2.2.closed = false ∧
      (Setup c e w ⟨sig, false, false, waiting, released⟩).2.1.disp (C_int sig) =
        ⟨Handler.sighandler, w.restorer, []⟩) := by
  by_cases he : e = 0
  · subst he
    simp [Setup_ok, installed, noopAct]
  · rw [Setup_fail c e he]
    refine ⟨fun _ => ⟨rfl, fun _ => rfl, ?_, rfl, rfl⟩, ?_, fun h => absurd h he⟩
    · intro h0 h1
      exact Errno_of_pos e h0 (lt_trans h1 (by norm_num))
    · simp [he]

/-- C5 at EINVAL (22): the error text and the flags after the failed `Setup`. -/
theorem Setup_outcome_witness :
    (Setup ⟨1, 1⟩ 22 World.boot ⟨99, false, false, [], []⟩).1 =
      Outcome.returned (some (GoError.errorf "setup sigaction : " (GoError.errno 22))) ∧
    (Setup ⟨1, 1⟩ 22 World.boot ⟨99, false, false, [], []⟩).2.2.closed = true :=
  ⟨((Setup_outcome ⟨1, 1⟩ 22 World.boot 99 [] []).1 (by decide)).1,
   ((Setup_outcome ⟨1, 1⟩ 22 World.boot 99 [] []).1 (by decide)).2.2.2.2⟩

/-- C6 as the code has it: on a Closed instance whose `init` flag is set (closed
by a failed `Setup`, or by a successful `Close` after `Setup`) `Signal` returns nil
at once, calls nothing and changes nothing; on an instance closed before any
`Setup` (`init` unset) `Signal` first parks in `cond.Wait()`, and once a broadcast
has released it, it returns nil, calls nothing and changes no flag. -/
theorem Signal_on_closed (c : Caller) (r : Int) (w : World) (i : Interrupter)
    (hc : i.closed = true) :
    (i.init = true → Signal c r w i = (Outcome.returned none, w, i)) ∧
    (i.init = false →
      Signal c r w i =
        (Outcome.blocked, { w with trace := w.trace ++ [Event.condWait c.g] },
         { i with waiting := i.waiting ++ [c.g] })) ∧
    (c.g ∈ i.released →
      SignalWake c r w i =
        (Outcome.returned none, w, { i with released := i.released.erase c.g })) := by
  refine ⟨fun hi => ?_, fun hi => ?_, fun hm => ?_⟩
  · simp [Signal, hi, signalTail_closed c r w i hc]
  · simp [Signal, hi, World.log]
  · simp [SignalWake, hm, signalTail, hc]

/-- C6 on an instance closed by a failed `Setup`: `Signal` returns nil. -/
theorem Signal_on_closed_witness :
    (Setup ⟨1, 1⟩ 22 World.boot (New 10)).2.2.closed = true ∧
    (Signal ⟨2, 2⟩ 0 World.boot (Setup ⟨1, 1⟩ 22 World.boot (New 10)).2.2).1 =
      Outcome.returned none :=
  ⟨by decide,
   congrArg Prod.fst ((Signal_on_closed ⟨2, 2⟩ 0 World.boot
     (Setup ⟨1, 1⟩ 22 World.boot (New 10)).2.2 (by decide)).1 (by decide))⟩

/-- C6 as stated fails: a fresh instance on which `Close` succeeded is Closed
(`closed` set), and the next `Signal` does not return nil: it parks in
`cond.Wait()`, because `init` is unset. -/
theorem Signal_on_closed_counterexample :
    (Close ⟨1, 1⟩ 0 World.boot (New 10)).1 = Outcome.returned none ∧
    (Close ⟨1, 1⟩ 0 World.boot (New 10)).2.2.closed = true ∧
    (Signal ⟨2, 2⟩ 0 (Close ⟨1, 1⟩ 0 World.boot (New 10)).2.1
      (Close ⟨1, 1⟩ 0 World.boot (New 10)).2.2).1 = Outcome.blocked ∧
    (Signal ⟨2, 2⟩ 0 (Close ⟨1, 1⟩ 0 World.boot (New 10)).2.1
      (Close ⟨1, 1⟩ 0 World.boot (New 10)).2.2).2.2.waiting = [2] := by
  decide

/-- Flags and signal number of every instance across one call of the process. -/
theorem exec_flags (s : Sys) (k : Nat) (call : Call) (j : Nat) :
    ((s.objs j).closed = true → ((exec k call s).2.objs j).closed = true) ∧
    ((s.objs j).init = true → ((exec k call s).2.objs j).init = true) ∧
    (call.isSignal = true →
      ((exec k call s).2.objs j).init = (s.objs j).init ∧
      ((exec k call s).2.objs j).closed = (s.objs j).closed) ∧
    ((exec k call s).2.objs j).sig = (s.objs j).sig ∧
    ((s.objs j).closed = false → ((exec k call s).2.objs j).closed = true →
      j = k ∧
      ((∃ c e err, call = Call.Setup c e ∧
          (exec k call s).1 = Outcome.returned (some err)) ∨
       (∃ c e, call = Call.Close c e ∧ (exec k call s).1 = Outcome.returned none))) := by
  by_cases hj : j = k
  · subst hj
    have hf := run_frame call s.world (s.objs j)
    rw [exec_objs_self, exec_out]
    exact ⟨hf.2.2.1, hf.2.1, fun h => (hf.2.2.2.2.2 h).2, hf.1,
      fun h0 h1 => ⟨rfl, run_closes call s.world (s.objs j) h0 h1⟩⟩
  · rw [exec_objs_other k call s j hj]
    refine ⟨id, id, fun _ => ⟨rfl, rfl⟩, rfl, fun h0 h1 => ?_⟩
    rw [h0] at h1; cases h1

/-- C9: whatever the call, the instance it runs on and what the OS answers, every
instance of the process that is closed stays closed and every instance that is
initialised stays initialised; a step of `Signal` changes neither flag of any
instance; the signal number never changes; and an instance that goes from not
closed to closed is the one the call ran on, the call being a `Setup` that
returned an error or a `Close` that returned nil. -/
theorem flags_monotone (s : Sys) (k : Nat) (call : Call) (j : Nat) :
    ((s.objs j).closed = true → ((exec k call s).2.objs j).closed = true) ∧
    ((s.objs j).init = true → ((exec k call s).2.objs j).init = true) ∧
    (call.isSignal = true →
      ((exec k call s).2.objs j).init = (s.objs j).init ∧
      ((exec k call s).2.objs j).closed = (s.objs j).closed) ∧
    ((exec k call s).2.objs j).sig = (s.objs j).sig ∧
    ((s.objs j).closed = false → ((exec k call s).2.objs j).closed = true →
      j = k ∧
      ((∃ c e err, call = Call.Setup c e ∧
          (exec k call s).1 = Outcome.returned (some err)) ∨
       (∃ c e, call = Call.Close c e ∧ (exec k call s).1 = Outcome.returned none))) :=
  exec_flags s k call j

/-! ## Sequences of calls on one instance -/

theorem Close_nil_verdict (c : Caller) (e : Int) (w : World) (i : Interrupter)
    (hc : i.closed = false) (h : (Close c e w i).1 = Outcome.returned none) : e = 0 := by
  by_contra he
  rw [Close_fail c e he w i hc] at h
  cases h

theorem Setup_nil_verdict (c : Caller) (e : Int) (w : World) (i : Interrupter)
    (h : (Setup c e w i).1 = Outcome.returned none) : e = 0 := by
  by_contra he
  rw [Setup_fail c e he w i] at h
  cases h

theorem exec_Close_closed (k : Nat) (c : Caller) (e : Int) (s : Sys)
    (hc : (s.objs k).closed = true) :
    exec k (Call.Close c e) s = (Outcome.returned none, s) := by
  simp [exec, Call.run, Close_closed c e s.world (s.objs k) hc]

theorem runAll_Close_closed (k : Nat) (rest : List (Caller × Int)) (s : Sys)
    (hc : (s.objs k).closed = true) :
    runAll (rest.map fun p => (k, Call.Close p.1 p.2)) s =
      (List.replicate rest.length (Outcome.returned none), s) := by
  induction rest with
  | nil => rfl
  | cons p rest ih =>
    simp only [List.map_cons, runAll_cons, exec_Close_closed k p.1 p.2 s hc, ih,
      List.length_cons, List.replicate_succ]

/-- C7: on a Closed instance `Close` returns nil and changes nothing: it calls
neither `runtime.UnlockOSThread` nor the restore, and the world and the instance
are as before. So when a `Close` on an instance that is not closed succeeds, it
has made one unpin and one restore call, every `Close` of any sequence that
follows returns nil, and the process is after the sequence as it was after the
first `Close`: the restore was called once in total. -/
theorem Close_idempotent (s : Sys) (k : Nat) (c0 : Caller) (e0 : Int)
    (rest : List (Caller × Int)) (hopen : (s.objs k).closed = false)
    (hfirst : (exec k (Call.Close c0 e0) s).1 = Outcome.returned none) :
    (∀ (c : Caller) (e : Int) (w : World) (i : Interrupter), i.closed = true →
      Close c e w i = (Outcome.returned none, w, i)) ∧
    ((exec k (Call.Close c0 e0) s).2.objs k).closed = true ∧
    runAll (rest.map fun p => (k, Call.Close p.1 p.2)) (exec k (Call.Close c0 e0) s).2 =
      (List.replicate rest.length (Outcome.returned none), (exec k (Call.Close c0 e0) s).2) ∧
    newEvents s.world
        (runAll (rest.map fun p => (k, Call.Close p.1 p.2))
          (exec k (Call.Close c0 e0) s).2).2.world =
      [Event.unlockOSThread c0.g c0.m,
       Event.sigactionRestore (C_int (s.objs k).sig) s.world.oact 0,
       Event.condBroadcast (s.objs k).waiting] := by
  have he : e0 = 0 := Close_nil_verdict c0 e0 s.world (s.objs k) hopen hfirst
  subst he
  have hcl : ((exec k (Call.Close c0 0) s).2.objs k).closed = true := by
    rw [exec_objs_self]; simp [Call.run, Close_ok c0 s.world (s.objs k) hopen]
  refine ⟨fun c e w i h => Close_closed c e w i h, hcl, runAll_Close_closed k rest _ hcl, ?_⟩
  rw [runAll_Close_closed k rest _ hcl]
  apply newEvents_append
  rw [exec_world]
  simp [Call.run, Close_ok c0 s.world (s.objs k) hopen]

/-- C7 on an instance that thread 1 set up: one successful `Close`, then three
more; all return nil and the restore is logged once. -/
theorem Close_idempotent_witness :
    ((exec 0 (Call.Setup ⟨1, 1⟩ 0) ⟨World.boot, fun _ => New 10⟩).2.objs 0).closed = false ∧
    (runAll ([(⟨1, 1⟩, 0), (⟨2, 2⟩, 22), (⟨1, 1⟩, 0)].map fun p => (0, Call.Close p.1 p.2))
        (exec 0 (Call.Close ⟨1, 1⟩ 0)
          (exec 0 (Call.Setup ⟨1, 1⟩ 0) ⟨World.boot, fun _ => New 10⟩).2).2).1 =
      [Outcome.returned none, Outcome.returned none, Outcome.returned none] ∧
    restores (newEvents (exec 0 (Call.Setup ⟨1, 1⟩ 0) ⟨World.boot, fun _ => New 10⟩).2.world
        (runAll ([(⟨1, 1⟩, 0), (⟨2, 2⟩, 22), (⟨1, 1⟩, 0)].map fun p => (0, Call.Close p.1 p.2))
          (exec 0 (Call.Close ⟨1, 1⟩ 0)
            (exec 0 (Call.Setup ⟨1, 1⟩ 0) ⟨World.boot, fun _ => New 10⟩).2).2).2.world) =
      [Event.sigactionRestore 10 ⟨Handler.dfl, 0, []⟩ 0] := by
  have h := Close_idempotent (exec 0 (Call.Setup ⟨1, 1⟩ 0) ⟨World.boot, fun _ => New 10⟩).2 0
    ⟨1, 1⟩ 0 [(⟨1, 1⟩, 0), (⟨2, 2⟩, 22), (⟨1, 1⟩, 0)] (by decide) (by decide)
  refine ⟨by decide, ?_, ?_⟩
  · rw [h.2.2.1]; rfl
  · rw [h.2.2.2]; decide

/-- On an instance with both flags set, a call other than `Setup` leaves the
world alone and returns nil (or has nothing to run). -/
theorem run_closed_init (call : Call) (hs : call.isSetup = false) (w : World)
    (i : Interrupter) (hi : i.init = true) (hc : i.closed = true) :
    (call.run w i).2.1 = w ∧
    ((call.run w i).1 = Outcome.returned none ∨
      ((call.run w i).1 = Outcome.idle ∧ ∃ c r, call = Call.SignalWake c r)) ∧
    (call.run w i).2.2.init = true ∧ (call.run w i).2.2.closed = true := by
  cases call with
  | Setup c e => simp [Call.isSetup] at hs
  | Close c e => simp [Call.run, Close_closed c e w i hc, hi, hc]
  | Signal c r => simp [Call.run, Signal, hi, signalTail_closed c r w i hc, hc]
  | SignalWake c r =>
    by_cases hm : c.g ∈ i.released
    · simp [Call.run, SignalWake, hm, signalTail, hc, hi]
    · simp [Call.run, SignalWake, hm, hc, hi]

theorem runAll_closed_init (k : Nat) (calls : List Call)
    (hcalls : ∀ call ∈ calls, call.isSetup = false) (s : Sys)
    (hi : (s.objs k).init = true) (hc : (s.objs k).closed = true) :
    (runAll (calls.map fun call => (k, call)) s).2.world = s.world ∧
    List.Forall₂
      (fun call out => out = Outcome.returned none ∨
        (out = Outcome.idle ∧ ∃ c r, call = Call.SignalWake c r))
      calls (runAll (calls.map fun call => (k, call)) s).1 ∧
    ((runAll (calls.map fun call => (k, call)) s).2.objs k).init = true ∧
    ((runAll (calls.map fun call => (k, call)) s).2.objs k).closed = true := by
  induction calls generalizing s with
  | nil => exact ⟨rfl, List.Forall₂.nil, hi, hc⟩
  | cons call calls ih =>
    have hcall := hcalls call (List.mem_cons_self _ _)
    have hrest : ∀ x ∈ calls, x.isSetup = false :=
      fun x hx => hcalls x (List.mem_cons_of_mem _ hx)
    have h1 := run_closed_init call hcall s.world (s.objs k) hi hc
    have hi1 : ((exec k call s).2.objs k).init = true := by
      rw [exec_objs_self]; exact h1.2.2.1
    have hc1 : ((exec k call s).2.objs k).closed = true := by
      rw [exec_objs_self]; exact h1.2.2.2
    have h2 := ih hrest (exec k call s).2 hi1 hc1
    simp only [List.map_cons, runAll_cons]
    refine ⟨?_, ?_, h2.2.2.1, h2.2.2.2⟩
    · rw [h2.1, exec_world]; exact h1.1
    · exact List.Forall₂.cons h1.2.1 h2.2.1

/-- C10: on an instance with `closed` set and `init` unset (a `Close` succeeded
before any `Setup`), a `Setup` whose install succeeds returns nil after pinning
the caller and overwriting the disposition of the signal with the no-op handler
(empty mask, no flag but the bits libc adds), and the instance is still closed.
Whatever `Signal` and `Close` calls follow on
the instance, each returns nil (a `SignalWake` of a goroutine that is not released
has nothing to run) and the world stays exactly as `Setup` left it: no
`pthread_kill`, no restore, the disposition still the no-op handler. -/
theorem Setup_after_Close (s : Sys) (k : Nat) (c : Caller) (calls : List Call)
    (_hi : (s.objs k).init = false) (hc : (s.objs k).closed = true)
    (hcalls : ∀ call ∈ calls, call.isSetup = false) :
    (exec k (Call.Setup c 0) s).1 = Outcome.returned none ∧
    newEvents s.world (exec k (Call.Setup c 0) s).2.world =
      [Event.lockOSThread c.g c.m,
       Event.sigactionInstall (C_int (s.objs k).sig) noopAct 0,
       Event.condBroadcast (s.objs k).waiting] ∧
    (exec k (Call.Setup c 0) s).2.world.disp (C_int (s.objs k).sig) =
      ⟨Handler.sighandler, s.world.restorer, []⟩ ∧
    ((exec k (Call.Setup c 0) s).2.objs k).closed = true ∧
    List.Forall₂
      (fun call out => out = Outcome.returned none ∨
        (out = Outcome.idle ∧ ∃ c1 r, call = Call.SignalWake c1 r))
      calls (runAll (calls.map fun call => (k, call)) (exec k (Call.Setup c 0) s).2).1 ∧
    (runAll (calls.map fun call => (k, call)) (exec k (Call.Setup c 0) s).2).2.world =
      (exec k (Call.Setup c 0) s).2.world ∧
    ((runAll (calls.map fun call => (k, call)) (exec k (Call.Setup c 0) s).2).2.objs k).closed
      = true := by
  have hi1 : ((exec k (Call.Setup c 0) s).2.objs k).init = true := by
    rw [exec_objs_self]; simp [Call.run, Setup_ok]
  have hc1 : ((exec k (Call.Setup c 0) s).2.objs k).closed = true := by
    rw [exec_objs_self]; simp [Call.run, Setup_ok, hc]
  have h := runAll_closed_init k calls hcalls (exec k (Call.Setup c 0) s).2 hi1 hc1
  refine ⟨?_, ?_, ?_, hc1, h.2.1, h.1, h.2.2.2⟩
  · rw [exec_out]; simp [Call.run, Setup_ok]
  · apply newEvents_append
    rw [exec_world]; simp [Call.run, Setup_ok]
  · rw [exec_world]; simp [Call.run, Setup_ok, installed, noopAct]

/-- C10 from `New`: `Close` succeeds first, `Setup` by thread 1 then succeeds,
and a `Signal` and a `Close` that follow return nil and log nothing. -/
theorem Setup_after_Close_witness :
    ((exec 0 (Call.Close ⟨1, 1⟩ 0) ⟨World.boot, fun _ => New 10⟩).2.objs 0).init = false ∧
    ((exec 0 (Call.Close ⟨1, 1⟩ 0) ⟨World.boot, fun _ => New 10⟩).2.objs 0).closed = true ∧
    (exec 0 (Call.Setup ⟨1, 1⟩ 0)
      (exec 0 (Call.Close ⟨1, 1⟩ 0) ⟨World.boot, fun _ => New 10⟩).2).1 =
        Outcome.returned none ∧
    (runAll ([Call.Signal ⟨2, 2⟩ 0, Call.Close ⟨1, 1⟩ 0].map fun call => (0, call))
      (exec 0 (Call.Setup ⟨1, 1⟩ 0)
        (exec 0 (Call.Close ⟨1, 1⟩ 0) ⟨World.boot, fun _ => New 10⟩).2).2).2.world.trace =
      [Event.unlockOSThread 1 1, Event.sigactionRestore 10 ⟨Handler.dfl, 0, []⟩ 0,
       Event.condBroadcast [], Event.lockOSThread 1 1, Event.sigactionInstall 10 noopAct 0,
       Event.condBroadcast []] := by
  have h := Setup_after_Close (exec 0 (Call.Close ⟨1, 1⟩ 0) ⟨World.boot, fun _ => New 10⟩).2 0
    ⟨1, 1⟩ [Call.Signal ⟨2, 2⟩ 0, Call.Close ⟨1, 1⟩ 0] (by decide) (by decide) (by decide)
  refine ⟨by decide, by decide, h.1, ?_⟩
  rw [h.2.2.2.2.2.1]; decide

/-! ## The disposition between `Setup` and `Close` -/

/-- No call changes the platform. -/
theorem run_restorer (call : Call) (w : World) (i : Interrupter) :
    (call.run w i).2.1.restorer = w.restorer := by
  cases call with
  | Setup c e =>
    by_cases he : e = 0
    · subst he; simp [Call.run, Setup_ok]
    · simp [Call.run, Setup_fail c e he]
  | Close c e =>
    cases hc : i.closed
    · by_cases he : e = 0
      · subst he; simp [Call.run, Close_ok c w i hc]
      · simp [Call.run, Close_fail c e he w i hc]
    · simp [Call.run, Close_closed c e w i hc]
  | Signal c r =>
    cases hi : i.init
    · simp [Call.run, Signal_park c r w i hi]
    · cases hc : i.closed
      · simp [Call.run, Signal_init c r w i hi, signalTail_open c r w i hc]
      · simp [Call.run, Signal_init c r w i hi, signalTail_closed c r w i hc]
  | SignalWake c r =>
    by_cases hm : c.g ∈ i.released
    · have hj : SignalWake c r w i =
          signalTail c r w { i with released := i.released.erase c.g } := by
        simp [SignalWake, hm]
      generalize ({ i with released := i.released.erase c.g } : Interrupter) = j at hj
      cases hc : j.closed
      · simp [Call.run, hj, signalTail_open c r w j hc]
      · simp [Call.run, hj, signalTail_closed c r w j hc]
    · simp [Call.run, SignalWake, hm]

theorem runAll_restorer (mid : List (Nat × Call)) (s : Sys) :
    (runAll mid s).2.world.restorer = s.world.restorer := by
  induction mid generalizing s with
  | nil => rfl
  | cons st mid ih =>
    obtain ⟨j, call⟩ := st
    rw [runAll_cons, ih, exec_world]
    exact run_restorer call s.world (s.objs j)

theorem exec_between (k j : Nat) (call : Call) (s : Sys) (hb : between k (j, call) = true)
    (hc : (s.objs k).closed = false) :
    (exec j call s).2.world.disp = s.world.disp ∧
    (exec j call s).2.world.oact = s.world.oact ∧
    ((exec j call s).2.objs k).closed = false ∧
    ((exec j call s).2.objs k).sig = (s.objs k).sig := by
  have hf := run_frame call s.world (s.objs j)
  have hm := exec_flags s j call k
  cases call with
  | Setup c e => simp [between] at hb
  | Close c e =>
    simp only [between, Bool.and_eq_true, beq_iff_eq, bne_iff_ne] at hb
    obtain ⟨hjk, he⟩ := hb
    subst hjk
    rw [exec_world, exec_objs_self]
    simp [Call.run, Close_fail c e he s.world (s.objs j) hc, hc]
  | Signal c r =>
    rw [exec_world]
    exact ⟨(hf.2.2.2.2.2 rfl).1, (hf.2.2.2.2.1 rfl).2, by rw [(hm.2.2.1 rfl).2, hc], hm.2.2.2.1⟩
  | SignalWake c r =>
    rw [exec_world]
    exact ⟨(hf.2.2.2.2.2 rfl).1, (hf.2.2.2.2.1 rfl).2, by rw [(hm.2.2.1 rfl).2, hc], hm.2.2.2.1⟩

theorem runAll_between (k : Nat) (mid : List (Nat × Call))
    (hmid : ∀ st ∈ mid, between k st = true) (s : Sys) (hc : (s.objs k).closed = false) :
    (runAll mid s).2.world.disp = s.world.disp ∧
    (runAll mid s).2.world.oact = s.world.oact ∧
    ((runAll mid s).2.objs k).closed = false ∧
    ((runAll mid s).2.objs k).sig = (s.objs k).sig := by
  induction mid generalizing s with
  | nil => exact ⟨rfl, rfl, hc, rfl⟩
  | cons st mid ih =>
    obtain ⟨j, call⟩ := st
    have h1 := exec_between k j call s (hmid (j, call) (List.mem_cons_self _ _)) hc
    have h2 := ih (fun x hx => hmid x (List.mem_cons_of_mem _ hx)) (exec j call s).2 h1.2.2.1
    rw [runAll_cons]
    exact ⟨h2.1.trans h1.1, h2.2.1.trans h1.2.1, h2.2.2.1, h2.2.2.2.trans h1.2.2.2⟩

/-- C2 as the code and libc have it: on a fresh instance with signal `sig`,
whatever the disposition table, if `Setup` returns nil and, after calls that are
steps of `Signal` on any instance or failed `Close` attempts on this one (no
`Setup` on any instance, this one included, and no `Close` of another instance),
`Close` on the instance returns nil, then the entry of the signal passed to the
OS, `C.int(sig)`, is after `Close` the entry that was in effect before `Setup`
with the bits libc adds on every install joined to its flags: its handler and
its mask are those of the old entry, and it is the old entry itself whenever
that entry already carried those bits. After `Setup` and after each call in
between, the entry is the no-op handler with an empty mask and no flag but those
bits. `C.int(sig)` is `sig` for every signal number that fits a C `int`. -/
theorem disposition_round_trip (s : Sys) (k : Nat) (sig : Int) (c : Caller) (e : Int)
    (mid : List (Nat × Call)) (c1 : Caller) (e1 : Int)
    (hfresh : s.objs k = New sig)
    (hsetup : (exec k (Call.Setup c e) s).1 = Outcome.returned none)
    (hmid : ∀ st ∈ mid, between k st = true)
    (hclose : (exec k (Call.Close c1 e1) (runAll mid (exec k (Call.Setup c e) s).2).2).1 =
      Outcome.returned none) :
    (exec k (Call.Close c1 e1) (runAll mid (exec k (Call.Setup c e) s).2).2).2.world.disp
        (C_int sig) = installed s.world.restorer (s.world.disp (C_int sig)) ∧
    ((exec k (Call.Close c1 e1) (runAll mid (exec k (Call.Setup c e) s).2).2).2.world.disp
        (C_int sig)).sa_handler = (s.world.disp (C_int sig)).sa_handler ∧
    ((exec k (Call.Close c1 e1) (runAll mid (exec k (Call.Setup c e) s).2).2).2.world.disp
        (C_int sig)).sa_mask = (s.world.disp (C_int sig)).sa_mask ∧
    ((s.world.disp (C_int sig)).sa_flags ||| s.world.restorer =
        (s.world.disp (C_int sig)).sa_flags →
      (exec k (Call.Close c1 e1) (runAll mid (exec k (Call.Setup c e) s).2).2).2.world.disp
        (C_int sig) = s.world.disp (C_int sig)) ∧
    (∀ n : Nat,
      (runAll (mid.take n) (exec k (Call.Setup c e) s).2).2.world.disp (C_int sig) =
        ⟨Handler.sighandler, s.world.restorer, []⟩) ∧
    (-2 ^ 31 ≤ sig → sig < 2 ^ 31 → C_int sig = sig) := by
  have he : e = 0 := Setup_nil_verdict c e s.world (s.objs k) hsetup
  subst he
  have hw : (exec k (Call.Setup c 0) s).2.world.disp =
      Function.update s.world.disp (C_int sig) (installed s.world.restorer noopAct) := by
    rw [exec_world]; simp [Call.run, Setup_ok, hfresh, New]
  have ho : (exec k (Call.Setup c 0) s).2.world.oact = s.world.disp (C_int sig) := by
    rw [exec_world]; simp [Call.run, Setup_ok, hfresh, New]
  have hR : (runAll mid (exec k (Call.Setup c 0) s).2).2.world.restorer =
      s.world.restorer := by
    rw [runAll_restorer, exec_world]
    exact run_restorer (Call.Setup c 0) s.world (s.objs k)
  have hc : ((exec k (Call.Setup c 0) s).2.objs k).closed = false := by
    rw [exec_objs_self]; simp [Call.run, Setup_ok, hfresh, New]
  have hs : ((exec k (Call.Setup c 0) s).2.objs k).sig = sig := by
    rw [exec_objs_self]; simp [Call.run, Setup_ok, hfresh, New]
  have h := runAll_between k mid hmid _ hc
  have he1 : e1 = 0 := Close_nil_verdict c1 e1 _ _ h.2.2.1 hclose
  subst he1
  have hfin : (exec k (Call.Close c1 0) (runAll mid (exec k (Call.Setup c 0) s).2).2).2.world.disp
      (C_int sig) = installed s.world.restorer (s.world.disp (C_int sig)) := by
    rw [exec_world]
    simp [Call.run, Close_ok c1 _ _ h.2.2.1, h.2.2.2, hs, h.2.1, ho, hR]
  refine ⟨hfin, ?_, ?_, ?_, ?_, C_int_of_range sig⟩
  · rw [hfin]; rfl
  · rw [hfin]; rfl
  · intro hflags
    rw [hfin]
    unfold installed
    rw [hflags]
  · intro n
    have h2 := runAll_between k (mid.take n)
      (fun st hst => hmid st (List.mem_of_mem_take hst)) _ hc
    rw [h2.1, hw]
    simp [installed, noopAct]

/-- C2 on signal 10, whose entry is a handler installed through libc with
`SA_RESTART`: `Setup`, a `Signal`, a failed `Close`, a `Signal` on another
instance, then `Close`; the entry is back as it was, and in between it is the
no-op handler with `SA_RESTORER` alone. -/
theorem disposition_round_trip_witness :
    (exec 0 (Call.Close ⟨1, 1⟩ 0)
      (runAll [(0, Call.Signal ⟨2, 2⟩ 0), (0, Call.Close ⟨1, 1⟩ 22), (1, Call.Signal ⟨3, 3⟩ 0)]
        (exec 0 (Call.Setup ⟨1, 1⟩ 0) Sys.two).2).2).2.world.disp (C_int 10) =
      Sys.two.world.disp (C_int 10) ∧
    Sys.two.world.disp (C_int 10) = ⟨Handler.other 4096, 335544320, [2]⟩ ∧
    (runAll ([(0, Call.Signal ⟨2, 2⟩ 0), (0, Call.Close ⟨1, 1⟩ 22),
        (1, Call.Signal ⟨3, 3⟩ 0)].take 2)
      (exec 0 (Call.Setup ⟨1, 1⟩ 0) Sys.two).2).2.world.disp (C_int 10) =
      ⟨Handler.sighandler, Sys.two.world.restorer, []⟩ ∧
    Sys.two.world.restorer = 67108864 :=
  ⟨(disposition_round_trip Sys.two 0 10 ⟨1, 1⟩ 0
      [(0, Call.Signal ⟨2, 2⟩ 0), (0, Call.Close ⟨1, 1⟩ 22), (1, Call.Signal ⟨3, 3⟩ 0)]
      ⟨1, 1⟩ 0 rfl (by decide) (by decide) (by decide)).2.2.2.1 (by decide),
   by decide,
   (disposition_round_trip Sys.two 0 10 ⟨1, 1⟩ 0
      [(0, Call.Signal ⟨2, 2⟩ 0), (0, Call.Close ⟨1, 1⟩ 22), (1, Call.Signal ⟨3, 3⟩ 0)]
      ⟨1, 1⟩ 0 rfl (by decide) (by decide) (by decide)).2.2.2.2.1 2,
   by decide⟩

/-- C2 as stated fails, on x86-64 Linux. First, for signal 12, whose entry is the
pristine default with flags 0: after `Setup` the entry is the no-op handler with
flags `SA_RESTORER`, not 0, and after `Close` it is the default handler with flags
`SA_RESTORER`, not the entry before `Setup`. Second, for signal 10: a second
`Setup` on the same instance before `Close` saves the no-op handler over the old
entry, and `Close` leaves the no-op handler in place of the handler that was in
effect before the first `Setup`. -/
theorem disposition_round_trip_counterexample :
    Sys.two.objs 1 = New 12 ∧
    Sys.two.world.disp (C_int 12) = ⟨Handler.dfl, 0, []⟩ ∧
    (runAll [(1, Call.Setup ⟨1, 1⟩ 0), (1, Call.Close ⟨1, 1⟩ 0)] Sys.two).1 =
      [Outcome.returned none, Outcome.returned none] ∧
    (exec 1 (Call.Setup ⟨1, 1⟩ 0) Sys.two).2.world.disp (C_int 12) =
      ⟨Handler.sighandler, 67108864, []⟩ ∧
    (runAll [(1, Call.Setup ⟨1, 1⟩ 0), (1, Call.Close ⟨1, 1⟩ 0)] Sys.two).2.world.disp
      (C_int 12) = ⟨Handler.dfl, 67108864, []⟩ ∧
    Sys.two.objs 0 = New 10 ∧
    Sys.two.world.disp (C_int 10) = ⟨Handler.other 4096, 335544320, [2]⟩ ∧
    (runAll [(0, Call.Setup ⟨1, 1⟩ 0), (0, Call.Setup ⟨1, 1⟩ 0), (0, Call.Close ⟨1, 1⟩ 0)]
      Sys.two).1 = [Outcome.returned none, Outcome.returned none, Outcome.returned none] ∧
    (runAll [(0, Call.Setup ⟨1, 1⟩ 0), (0, Call.Setup ⟨1, 1⟩ 0), (0, Call.Close ⟨1, 1⟩ 0)]
      Sys.two).2.world.disp (C_int 10) = ⟨Handler.sighandler, 67108864, []⟩ := by
  decide

/-! ## The target of `Signal` -/

theorem exec_tid (j : Nat) (call : Call) (s : Sys) (h : call.isSetup = false) :
    (exec j call s).2.world.tid = s.world.tid := by
  rw [exec_world]
  exact ((run_frame call s.world (s.objs j)).2.2.2.2.1 h).1

theorem runAll_tid (mid : List (Nat × Call)) (hmid : ∀ st ∈ mid, st.2.isSetup = false)
    (s : Sys) : (runAll mid s).2.world.tid = s.world.tid := by
  induction mid generalizing s with
  | nil => rfl
  | cons st mid ih =>
    obtain ⟨j, call⟩ := st
    rw [runAll_cons, ih (fun x hx => hmid x (List.mem_cons_of_mem _ hx))]
    exact exec_tid j call s (hmid (j, call) (List.mem_cons_self _ _))

theorem runAll_sig (mid : List (Nat × Call)) (s : Sys) (k : Nat) :
    ((runAll mid s).2.objs k).sig = (s.objs k).sig := by
  induction mid generalizing s with
  | nil => rfl
  | cons st mid ih =>
    obtain ⟨j, call⟩ := st
    rw [runAll_cons, ih]
    exact (exec_flags s j call k).2.2.2.1

theorem exec_Setup_tid (k0 : Nat) (c : Caller) (e : Int) (s : Sys) :
    (exec k0 (Call.Setup c e) s).2.world.tid = c.m := by
  rw [exec_world]
  by_cases he : e = 0
  · subst he; simp [Call.run, Setup_ok]
  · simp [Call.run, Setup_fail c e he]

/-- C1 as the code has it: the thread id is one C static that every `Setup` of
the process overwrites. After a `Setup` by thread `c.m` on any instance (`k0`),
whether its install succeeded or not, and any calls that are not a `Setup`, a
`Signal` on an Active instance `k` makes exactly one call of `pthread_kill`, with
the signal of `k` converted by `C.int`, and its target is `c.m`: the thread of
the latest `Setup` of the process, which is the thread that set `k` up when no
`Setup` came in between (`k0 = k`); `C.int(sig)` is `sig` for every signal number
that fits a C `int`. -/
theorem Signal_targets_latest_Setup (s : Sys) (k0 k : Nat) (c : Caller) (e : Int)
    (mid : List (Nat × Call)) (c1 : Caller) (r : Int)
    (hmid : ∀ st ∈ mid, st.2.isSetup = false)
    (hinit : ((runAll mid (exec k0 (Call.Setup c e) s).2).2.objs k).init = true)
    (hopen : ((runAll mid (exec k0 (Call.Setup c e) s).2).2.objs k).closed = false) :
    newEvents (runAll mid (exec k0 (Call.Setup c e) s).2).2.world
        (exec k (Call.Signal c1 r) (runAll mid (exec k0 (Call.Setup c e) s).2).2).2.world =
      [Event.pthreadKill c.m (C_int (s.objs k).sig) r] ∧
    (-2 ^ 31 ≤ (s.objs k).sig → (s.objs k).sig < 2 ^ 31 →
      C_int (s.objs k).sig = (s.objs k).sig) := by
  refine ⟨?_, C_int_of_range _⟩
  apply newEvents_append
  rw [exec_world]
  have h3 : Signal c1 r (runAll mid (exec k0 (Call.Setup c e) s).2).2.world
      ((runAll mid (exec k0 (Call.Setup c e) s).2).2.objs k) =
      signalTail c1 r (runAll mid (exec k0 (Call.Setup c e) s).2).2.world
        ((runAll mid (exec k0 (Call.Setup c e) s).2).2.objs k) := by
    simp [Signal, hinit]
  simp only [Call.run, h3]
  rw [signalTail_open c1 r _ _ hopen]
  simp only [runAll_tid mid hmid, exec_Setup_tid, runAll_sig, (exec_flags s k0 _ k).2.2.2.1]

/-- C1 with no `Setup` in between: thread 1 sets up the instance for signal 10,
the instance for signal 12 is closed, and `Signal` targets thread 1. -/
theorem Signal_targets_latest_Setup_witness :
    ((runAll [(1, Call.Close ⟨2, 2⟩ 0), (0, Call.Signal ⟨3, 3⟩ 0)]
        (exec 0 (Call.Setup ⟨1, 1⟩ 0) Sys.two).2).2.objs 0).init = true ∧
    ((runAll [(1, Call.Close ⟨2, 2⟩ 0), (0, Call.Signal ⟨3, 3⟩ 0)]
        (exec 0 (Call.Setup ⟨1, 1⟩ 0) Sys.two).2).2.objs 0).closed = false ∧
    newEvents (runAll [(1, Call.Close ⟨2, 2⟩ 0), (0, Call.Signal ⟨3, 3⟩ 0)]
          (exec 0 (Call.Setup ⟨1, 1⟩ 0) Sys.two).2).2.world
        (exec 0 (Call.Signal ⟨3, 3⟩ 0)
          (runAll [(1, Call.Close ⟨2, 2⟩ 0), (0, Call.Signal ⟨3, 3⟩ 0)]
            (exec 0 (Call.Setup ⟨1, 1⟩ 0) Sys.two).2).2).2.world =
      [Event.pthreadKill 1 (C_int (Sys.two.objs 0).sig) 0] :=
  ⟨by decide, by decide,
   (Signal_targets_latest_Setup Sys.two 0 0 ⟨1, 1⟩ 0
     [(1, Call.Close ⟨2, 2⟩ 0), (0, Call.Signal ⟨3, 3⟩ 0)] ⟨3, 3⟩ 0
     (by decide) (by decide) (by decide)).1⟩

/-- C1 as stated fails: thread 1 sets up the instance for signal 10, thread 2
then sets up the instance for signal 12, and `Signal` on the first instance, still
Active, sends signal 10 to thread 2, not to thread 1. -/
theorem Signal_target_counterexample :
    (runAll [(0, Call.Setup ⟨1, 1⟩ 0), (1, Call.Setup ⟨2, 2⟩ 0)] Sys.two).1 =
      [Outcome.returned none, Outcome.returned none] ∧
    ((runAll [(0, Call.Setup ⟨1, 1⟩ 0), (1, Call.Setup ⟨2, 2⟩ 0)] Sys.two).2.objs 0).init
      = true ∧
    ((runAll [(0, Call.Setup ⟨1, 1⟩ 0), (1, Call.Setup ⟨2, 2⟩ 0)] Sys.two).2.objs 0).closed
      = false ∧
    newEvents (runAll [(0, Call.Setup ⟨1, 1⟩ 0), (1, Call.Setup ⟨2, 2⟩ 0)] Sys.two).2.world
        (exec 0 (Call.Signal ⟨3, 3⟩ 0)
          (runAll [(0, Call.Setup ⟨1, 1⟩ 0), (1, Call.Setup ⟨2, 2⟩ 0)] Sys.two).2).2.world =
      [Event.pthreadKill 2 10 0] := by
  decide

/-! ## `Signal` before `Setup` -/

theorem newEvents_self (w : World) : newEvents w w = [] := by
  simp [newEvents]

/-- A call that broadcasts leaves the instance initialised or closed. -/
theorem run_broadcast (call : Call) (w : World) (i : Interrupter)
    (h : ∃ l, Event.condBroadcast l ∈ newEvents w (call.run w i).2.1) :
    (call.run w i).2.2.init = true ∨ (call.run w i).2.2.closed = true := by
  obtain ⟨l, hl⟩ := h
  cases call with
  | Setup c e =>
    exact Or.inl ((Setup_sets_init c e w i))
  | Close c e =>
    cases hc : i.closed
    · by_cases he : e = 0
      · subst he; right; simp [Call.run, Close_ok c w i hc]
      · simp only [Call.run, Close_fail c e he w i hc] at hl
        rw [newEvents_append _ _ _ rfl] at hl
        simp at hl
    · simp [Call.run, Close_closed c e w i hc, newEvents_self] at hl
  | Signal c r =>
    cases hi : i.init
    · simp only [Call.run, Signal_park c r w i hi] at hl
      rw [newEvents_append _ _ _ rfl] at hl
      simp at hl
    · cases hc : i.closed
      · simp only [Call.run, Signal_init c r w i hi, signalTail_open c r w i hc] at hl
        rw [newEvents_append _ _ _ rfl] at hl
        simp at hl
      · simp [Call.run, Signal_init c r w i hi, signalTail_closed c r w i hc,
          newEvents_self] at hl
  | SignalWake c r =>
    by_cases hm : c.g ∈ i.released
    · have hj : SignalWake c r w i =
          signalTail c r w { i with released := i.released.erase c.g } := by
        simp [SignalWake, hm]
      generalize ({ i with released := i.released.erase c.g } : Interrupter) = j at hj
      cases hc : j.closed
      · simp only [Call.run, hj, signalTail_open c r w j hc] at hl
        rw [newEvents_append _ _ _ rfl] at hl
        simp at hl
      · simp [Call.run, hj, signalTail_closed c r w j hc, newEvents_self] at hl
    · simp [Call.run, SignalWake, hm, newEvents_self] at hl

/-- No goroutine is released from `Wait` on an instance with both flags unset. -/
theorem run_released (call : Call) (w : World) (i : Interrupter)
    (h : i.init = true ∨ i.closed = true ∨ i.released = []) :
    (call.run w i).2.2.init = true ∨ (call.run w i).2.2.closed = true ∨
      (call.run w i).2.2.released = [] := by
  have hf := run_frame call w i
  rcases h with h | h | h
  · exact Or.inl (hf.2.1 h)
  · exact Or.inr (Or.inl (hf.2.2.1 h))
  · cases call with
    | Setup c e => exact Or.inl (Setup_sets_init c e w i)
    | Close c e =>
      cases hc : i.closed
      · by_cases he : e = 0
        · subst he; right; left; simp [Call.run, Close_ok c w i hc]
        · right; right; simp [Call.run, Close_fail c e he w i hc, h]
      · right; left; simp [Call.run, Close_closed c e w i hc, hc]
    | Signal c r =>
      cases hi : i.init
      · right; right; simp [Call.run, Signal, hi, h]
      · exact Or.inl (hf.2.1 hi)
    | SignalWake c r =>
      right; right; simp [Call.run, SignalWake, h]

theorem runAll_released (sched : List (Nat × Call)) (s : Sys) (k : Nat)
    (h : (s.objs k).init = true ∨ (s.objs k).closed = true ∨ (s.objs k).released = []) :
    ((runAll sched s).2.objs k).init = true ∨ ((runAll sched s).2.objs k).closed = true ∨
      ((runAll sched s).2.objs k).released = [] := by
  induction sched generalizing s with
  | nil => exact h
  | cons st sched ih =>
    obtain ⟨j, call⟩ := st
    rw [runAll_cons]
    apply ih
    by_cases hj : k = j
    · subst hj; rw [exec_objs_self]; exact run_released call s.world (s.objs k) h
    · rw [exec_objs_other j call s k hj]; exact h

theorem SignalWake_closed (c : Caller) (r : Int) (w : World) (i : Interrupter)
    (hm : c.g ∈ i.released) (hc : i.closed = true) :
    SignalWake c r w i =
      (Outcome.returned none, w, { i with released := i.released.erase c.g }) := by
  simp [SignalWake, hm, signalTail, hc]

theorem SignalWake_open (c : Caller) (r : Int) (w : World) (i : Interrupter)
    (hm : c.g ∈ i.released) (hc : i.closed = false) :
    (SignalWake c r w i).2.1 =
      { w with trace := w.trace ++ [Event.pthreadKill w.tid (C_int i.sig) r] } := by
  have hj : SignalWake c r w i =
      signalTail c r w { i with released := i.released.erase c.g } := by
    simp [SignalWake, hm]
  rw [hj]
  exact congrArg Prod.fst
    (signalTail_open c r w { i with released := i.released.erase c.g } hc)

/-- C8 as the code has it. A `Signal` that starts while `init` is unset parks in
`cond.Wait()` and delivers nothing. It is released by the broadcast of the next
`Setup` (on success and on failure) or of a successful `Close`, whichever comes
first. When it resumes it acts on the state it finds: closed, it returns nil and
calls nothing; not closed, it calls `pthread_kill` once on the thread recorded by
the latest `Setup`, so right after a successful `Setup` it delivers to the thread
that called `Setup`, and right after a failed `Setup` it returns nil without a
delivery attempt. Every call that broadcasts leaves the instance initialised or
closed, and in every state the process reaches from a fresh instance, resuming a
`Signal` while `init` is still unset changes nothing in the world: a woken
`Signal` never delivers on an instance whose `Setup` has not run. -/
theorem Signal_waits_for_broadcast (s : Sys) (k : Nat) (sig : Int)
    (sched : List (Nat × Call)) (c : Caller) (r : Int) (hfresh : s.objs k = New sig) :
    (∀ (w : World) (i : Interrupter), i.init = false →
      Signal c r w i =
        (Outcome.blocked, { w with trace := w.trace ++ [Event.condWait c.g] },
         { i with waiting := i.waiting ++ [c.g] })) ∧
    (∀ (w : World) (i : Interrupter) (c0 : Caller) (e : Int), c.g ∈ i.waiting →
      c.g ∈ (Setup c0 e w i).2.2.released) ∧
    (∀ (w : World) (i : Interrupter) (c0 : Caller), i.closed = false → c.g ∈ i.waiting →
      c.g ∈ (Close c0 0 w i).2.2.released) ∧
    (∀ (w : World) (i : Interrupter), c.g ∈ i.released → i.closed = true →
      SignalWake c r w i =
        (Outcome.returned none, w, { i with released := i.released.erase c.g })) ∧
    (∀ (w : World) (i : Interrupter), c.g ∈ i.released → i.closed = false →
      (SignalWake c r w i).2.1 =
        { w with trace := w.trace ++ [Event.pthreadKill w.tid (C_int i.sig) r] }) ∧
    (∀ (w : World) (i : Interrupter) (c0 : Caller), i.closed = false → c.g ∈ i.waiting →
      newEvents (Setup c0 0 w i).2.1
          (SignalWake c r (Setup c0 0 w i).2.1 (Setup c0 0 w i).2.2).2.1 =
        [Event.pthreadKill c0.m (C_int i.sig) r]) ∧
    (∀ (w : World) (i : Interrupter) (c0 : Caller) (e : Int), e ≠ 0 → c.g ∈ i.waiting →
      (SignalWake c r (Setup c0 e w i).2.1 (Setup c0 e w i).2.2).1 = Outcome.returned none ∧
      (SignalWake c r (Setup c0 e w i).2.1 (Setup c0 e w i).2.2).2.1 = (Setup c0 e w i).2.1) ∧
    (∀ (call : Call) (w : World) (i : Interrupter),
      (∃ l, Event.condBroadcast l ∈ newEvents w (call.run w i).2.1) →
      (call.run w i).2.2.init = true ∨ (call.run w i).2.2.closed = true) ∧
    (((runAll sched s).2.objs k).init = false →
      (exec k (Call.SignalWake c r) (runAll sched s).2).2.world = (runAll sched s).2.world) := by
  refine ⟨fun w i hi => Signal_park c r w i hi, ?_, ?_,
    fun w i hm hc => SignalWake_closed c r w i hm hc,
    fun w i hm hc => SignalWake_open c r w i hm hc, ?_, ?_,
    fun call w i h => run_broadcast call w i h, ?_⟩
  · intro w i c0 e hm
    by_cases he : e = 0
    · subst he; simp [Setup_ok, hm]
    · simp [Setup_fail c0 e he, hm]
  · intro w i c0 hc hm
    simp [Close_ok c0 w i hc, hm]
  · intro w i c0 hc hm
    apply newEvents_append
    rw [Setup_ok]
    rw [SignalWake_open c r _ _ (by simp [hm]) (by simpa using hc)]
  · intro w i c0 e he hm
    rw [Setup_fail c0 e he]
    rw [SignalWake_closed c r _ _ (by simp [hm]) rfl]
    exact ⟨rfl, rfl⟩
  · intro hi
    have h0 : (s.objs k).init = true ∨ (s.objs k).closed = true ∨ (s.objs k).released = [] := by
      right; right; rw [hfresh]; rfl
    have h := runAll_released sched s k h0
    rw [exec_world]
    rcases h with h | h | h
    · rw [hi] at h; cases h
    · by_cases hm : c.g ∈ ((runAll sched s).2.objs k).released
      · simp [Call.run, SignalWake_closed c r _ _ hm h]
      · simp [Call.run, SignalWake, hm]
    · simp [Call.run, SignalWake, h]

/-- C8 on a fresh instance for signal 10: goroutine 2 parks in `Signal`, a `Close`
succeeds and releases it, and the resumed `Signal`, finding `init` unset, returns
nil and changes nothing in the world. -/
theorem Signal_waits_for_broadcast_witness :
    Sys.two.objs 0 = New 10 ∧
    ((runAll [(0, Call.Signal ⟨2, 2⟩ 0), (0, Call.Close ⟨1, 1⟩ 0)] Sys.two).2.objs 0).init
      = false ∧
    ((runAll [(0, Call.Signal ⟨2, 2⟩ 0), (0, Call.Close ⟨1, 1⟩ 0)] Sys.two).2.objs 0).released
      = [2] ∧
    (exec 0 (Call.SignalWake ⟨2, 2⟩ 0)
        (runAll [(0, Call.Signal ⟨2, 2⟩ 0), (0, Call.Close ⟨1, 1⟩ 0)] Sys.two).2).1 =
      Outcome.returned none ∧
    (exec 0 (Call.SignalWake ⟨2, 2⟩ 0)
        (runAll [(0, Call.Signal ⟨2, 2⟩ 0), (0, Call.Close ⟨1, 1⟩ 0)] Sys.two).2).2.world =
      (runAll [(0, Call.Signal ⟨2, 2⟩ 0), (0, Call.Close ⟨1, 1⟩ 0)] Sys.two).2.world :=
  ⟨rfl, by decide, by decide, by decide,
   (Signal_waits_for_broadcast Sys.two 0 10
     [(0, Call.Signal ⟨2, 2⟩ 0), (0, Call.Close ⟨1, 1⟩ 0)] ⟨2, 2⟩ 0 rfl).2.2.2.2.2.2.2.2
     (by decide)⟩

/-- C8 as stated fails. First schedule: goroutine 2 parks in `Signal` on a fresh
instance, a `Close` succeeds and releases it, and the `Signal` returns nil although
no `Setup` has completed (`init` is unset). Second schedule: `Setup` succeeds, then
`Close` succeeds before the parked `Signal` resumes, and the `Signal` returns nil
with no `pthread_kill` although `Setup` succeeded. -/
theorem Signal_wait_counterexample :
    (runAll [(0, Call.Signal ⟨2, 2⟩ 0), (0, Call.Close ⟨1, 1⟩ 0),
        (0, Call.SignalWake ⟨2, 2⟩ 0)] Sys.two).1 =
      [Outcome.blocked, Outcome.returned none, Outcome.returned none] ∧
    ((runAll [(0, Call.Signal ⟨2, 2⟩ 0), (0, Call.Close ⟨1, 1⟩ 0),
        (0, Call.SignalWake ⟨2, 2⟩ 0)] Sys.two).2.objs 0).init = false ∧
    (runAll [(0, Call.Signal ⟨2, 2⟩ 0), (0, Call.Setup ⟨1, 1⟩ 0), (0, Call.Close ⟨1, 1⟩ 0),
        (0, Call.SignalWake ⟨2, 2⟩ 0)] Sys.two).1 =
      [Outcome.blocked, Outcome.returned none, Outcome.returned none,
       Outcome.returned none] ∧
    kills (runAll [(0, Call.Signal ⟨2, 2⟩ 0), (0, Call.Setup ⟨1, 1⟩ 0),
        (0, Call.Close ⟨1, 1⟩ 0), (0, Call.SignalWake ⟨2, 2⟩ 0)] Sys.two).2.world.trace =
      [] := by
  decide

end Gointr
